import Mathlib

/-!
Verification of the incremental issue-poller in `main.py`.

The embedding models, straight from the source:
- `format_datetime` (line 16): render a UTC timestamp as `YYYY-MM-DDTHH:MM:SSZ`.
  Timezone conversion (`astimezone`) is abstracted: the embedded `DateTime`
  carries the already-converted UTC fields.
- the retry loop (lines 88-111): one HTTP attempt per timeout budget in
  `[8, 16, 32, 128]`; timeouts and connection errors advance to the next
  budget; statuses 304/403/422/503 raise a `RuntimeError` immediately;
  status 200 parses the body (an unparseable body raises a request
  exception that is logged and re-raised); any other status falls through
  the `if`/`elif` chain and also advances to the next budget.  If every
  budget is consumed without a parsed result, `search_results` is still
  `None` and line 113 raises `TypeError` (modelled as `RunError.noneTypeError`).
- the page loop (lines 84-124): fetch page, merge the page's item submitter
  logins into `set_of_users`, add the page's item count to `count_so_far`,
  and break exactly when `count_so_far` equals the current page's
  `total_count`.  The loop is embedded with explicit fuel; `none` means the
  loop is still running after that many iterations.
- `main` (lines 50-128): `new_config = deepcopy(config)` followed by the
  two `last_queried` assignments (lines 74-75), then the page loop; the new
  config is returned only when the loop completes.  The config dictionary
  is modelled as a nested association list (`YVal`); a missing
  `last_queried`/`created_to` entry raises (modelled `RunError.keyError`).
- the `__main__` block (lines 130-148): run `main`; on an exception the
  process aborts with the file untouched; on success copy the config file
  to its `.backup` name and only then overwrite the file.  A failing
  `shutil.copy2` is modelled by the `copySucceeds` flag.

The network is a pure environment `env : Nat → Nat → AttemptOutcome`
giving the outcome of each attempt (`env page attempt`).
-/

structure DateTime where
  year : Nat
  month : Nat
  day : Nat
  hour : Nat
  minute : Nat
  second : Nat

def pad2 (n : Nat) : String :=
  if n < 10 then "0" ++ toString n else toString n

def pad4 (n : Nat) : String :=
  if n < 10 then "000" ++ toString n
  else if n < 100 then "00" ++ toString n
  else if n < 1000 then "0" ++ toString n
  else toString n

/-- Line 16: `date.astimezone(timezone.utc).strftime("%Y-%m-%dT%H:%M:%SZ")`. -/
def format_datetime (date : DateTime) : String :=
  pad4 date.year ++ "-" ++ pad2 date.month ++ "-" ++ pad2 date.day ++ "T" ++
  pad2 date.hour ++ ":" ++ pad2 date.minute ++ ":" ++ pad2 date.second ++ "Z"

structure User where
  login : String
deriving DecidableEq

structure Item where
  user : User
deriving DecidableEq

/-- The parsed JSON body used by the loop: `total_count` and `items`. -/
structure SearchResults where
  total_count : Nat
  items : List Item
deriving DecidableEq

/-- Outcome of one `session.get` attempt.  `response s none` is a response
whose body `response.json()` cannot parse; for non-200 statuses the body is
never inspected. -/
inductive AttemptOutcome where
| timeout : AttemptOutcome
| connError : AttemptOutcome
| response : Nat → Option SearchResults → AttemptOutcome

/-- The ways one run can raise.  `terminalApi` is the `RuntimeError` of
lines 96-102; `requestException` is the re-raised request exception of
line 111 (unparseable body on a 200); `noneTypeError` is the `TypeError`
raised at line 113 when all four attempts ended without a parsed result;
`keyError` is the lookup error when the config lacks
`last_queried.created_to` (line 67). -/
inductive RunError where
| terminalApi : Nat → String → RunError
| requestException : RunError
| noneTypeError : RunError
| keyError : RunError
deriving DecidableEq

/-- The `RuntimeError` messages of lines 96-102. -/
def terminalMsg (s : Nat) : String :=
  "Response Status Code " ++ toString s ++ ": " ++
  (if s = 304 then "Not modified: Probably some issue on the server side"
   else if s = 403 then "Forbidden, probably the authentication token is incorrect or expired"
   else if s = 422 then "Wrong query format or the endpoint has been spammed"
   else "Service is unavailable, probably the server is down")

/-- Line 88: `enumerate([8, 16, 32, 128])`. -/
def retryTimeouts : List Nat := [8, 16, 32, 128]

/-- The retry loop of lines 88-111 for one page.  `attempts` counts the
`session.get` calls already made; the returned `Nat` is the total number of
attempts made for this page.  An empty budget list is the loop falling off
the end, after which line 113 subscripts `None`. -/
def fetchGo (env : Nat → AttemptOutcome) :
    List Nat → Nat → Except (RunError × Nat) (SearchResults × Nat)
| [], attempts => .error (.noneTypeError, attempts)
| _ :: rest, attempts =>
  match env attempts with
  | .timeout => fetchGo env rest (attempts + 1)
  | .connError => fetchGo env rest (attempts + 1)
  | .response status body =>
    if status = 200 then
      match body with
      | some results => .ok (results, attempts + 1)
      | none => .error (.requestException, attempts + 1)
    else if status = 304 ∨ status = 403 ∨ status = 422 ∨ status = 503 then
      .error (.terminalApi status (terminalMsg status), attempts + 1)
    else
      fetchGo env rest (attempts + 1)

/-- One page fetch with the full budget list, lines 88-113. -/
def fetchPage (env : Nat → AttemptOutcome) :
    Except (RunError × Nat) (SearchResults × Nat) :=
  fetchGo env retryTimeouts 0

/-- `true` on the attempt outcomes after which the retry loop advances to
the next budget: timeout, connection error, or a status handled by no
branch of the `if`/`elif` chain. -/
def continuesRetry : AttemptOutcome → Bool
| .timeout => true
| .connError => true
| .response status _ =>
    (status != 200) && (status != 304) && (status != 403) &&
    (status != 422) && (status != 503)

/-- Line 114: the set of `item["user"]["login"]` over a page's items. -/
def pageLogins (results : SearchResults) : Finset String :=
  (results.items.map (fun item => item.user.login)).toFinset

/-- Result of a completed page loop: the final `set_of_users` and the page
number at which the loop broke (pages are numbered from 1, so this is the
number of page fetches made). -/
structure Agg where
  users : Finset String
  lastPage : Nat

/-- The `while True` page loop of lines 84-124, with explicit fuel.
`none` means the loop has not finished within `fuel` iterations. -/
def pageLoopGo (env : Nat → Nat → AttemptOutcome) :
    Nat → Nat → Nat → Finset String → Option (Except RunError Agg)
| 0, _, _, _ => none
| fuel + 1, page, count_so_far, set_of_users =>
  match fetchPage (env page) with
  | .error (e, _) => some (.error e)
  | .ok (search_results, _) =>
    if count_so_far + search_results.items.length = search_results.total_count then
      some (.ok ⟨set_of_users ∪ pageLogins search_results, page⟩)
    else
      pageLoopGo env fuel (page + 1) (count_so_far + search_results.items.length)
        (set_of_users ∪ pageLogins search_results)

/-- A YAML-ish value: a string leaf or a dictionary. -/
inductive YVal where
| str : String → YVal
| map : List (String × YVal) → YVal

/-- Python dictionary lookup on the association-list model. -/
def dictGet : List (String × YVal) → String → Option YVal
| [], _ => none
| (k, v) :: rest, key => if k = key then some v else dictGet rest key

/-- Python dictionary assignment `d[key] = v`: replace the entry if the key
is present, otherwise append it. -/
def dictSet : List (String × YVal) → String → YVal → List (String × YVal)
| [], key, v => [(key, v)]
| (k, w) :: rest, key, v =>
  if k = key then (k, v) :: rest else (k, w) :: dictSet rest key v

/-- Lookup along a key path. -/
def getPath : YVal → List String → Option YVal
| v, [] => some v
| .str _, _ :: _ => none
| .map entries, key :: keys =>
  match dictGet entries key with
  | none => none
  | some v => getPath v keys

/-- Lines 52 and 73-75: `new_config = deepcopy(config)` followed by
`new_config["last_queried"]["created_to"] = now_timestamp` and
`new_config["last_queried"]["created_from"] = config['last_queried']['created_to']`.
`none` is the `KeyError`/`TypeError` when the config lacks the accessed
entries (already raised at line 67 when the query string is built). -/
def updateConfig (config : YVal) (nowStr : String) : Option YVal :=
  match config with
  | .map entries =>
    match dictGet entries "last_queried" with
    | some (.map lq) =>
      match dictGet lq "created_to" with
      | some prevTo =>
        some (.map (dictSet entries "last_queried"
          (.map (dictSet (dictSet lq "created_to" (.str nowStr)) "created_from" prevTo))))
      | none => none
    | _ => none
  | _ => none

/-- A successful run of `main`: the returned `new_config` plus the final
aggregate (printed at line 127). -/
structure RunOk where
  newConfig : YVal
  users : Finset String
  lastPage : Nat

/-- `main` of lines 50-128.  The query-string construction (lines 66-71,
85-86) only feeds the network, which is abstracted into `env`, so it does
not appear.  `none` means the page loop is still running after `fuel`
iterations. -/
def mainRun (config : YVal) (now : DateTime) (env : Nat → Nat → AttemptOutcome)
    (fuel : Nat) : Option (Except RunError RunOk) :=
  match updateConfig config (format_datetime now) with
  | none => some (.error .keyError)
  | some new_config =>
    match pageLoopGo env fuel 1 0 ∅ with
    | none => none
    | some (.error e) => some (.error e)
    | some (.ok agg) => some (.ok ⟨new_config, agg.users, agg.lastPage⟩)

/-- The two files touched by the `__main__` block: the config file and its
`.backup` sibling (`none` = absent). -/
structure FsState where
  configFile : Option YVal
  backupFile : Option YVal

/-- Outcome of the `__main__` block: still polling, aborted by a raised
error (file system untouched), aborted because `shutil.copy2` failed
(file system untouched), or completed. -/
inductive EntryResult where
| running : EntryResult
| failed : RunError → FsState → EntryResult
| backupFailed : FsState → EntryResult
| ok : FsState → EntryResult

/-- Lines 130-148: run `main` on the loaded config; if it raises, the
process dies with the files as they were; otherwise copy the config file
over the backup file and then overwrite the config file with the new
value.  `copySucceeds` is whether `shutil.copy2` (line 143) succeeds; when
it raises, the overwrite of lines 146-147 is never reached. -/
def entryMain (config : YVal) (fs : FsState) (now : DateTime)
    (env : Nat → Nat → AttemptOutcome) (fuel : Nat) (copySucceeds : Bool) :
    EntryResult :=
  match mainRun config now env fuel with
  | none => .running
  | some (.error e) => .failed e fs
  | some (.ok r) =>
    if copySucceeds then
      EntryResult.ok ⟨some r.newConfig, fs.configFile⟩
    else
      .backupFailed fs

/-- Total number of items across a list of pages. -/
def countSum : List SearchResults → Nat
| [] => 0
| results :: rest => results.items.length + countSum rest

/-- Union of the submitter logins across a list of pages. -/
def allLogins : List SearchResults → Finset String
| [] => ∅
| results :: rest => pageLogins results ∪ allLogins rest

/-- Cumulative item count after the first `k` pages of a page stream. -/
def sumTo (pages : Nat → SearchResults) : Nat → Nat
| 0 => 0
| k + 1 => sumTo pages k + (pages (k + 1)).items.length

/-- Environment in which every attempt of page `p` succeeds immediately
with body `pages p`. -/
def envOfFun (pages : Nat → SearchResults) : Nat → Nat → AttemptOutcome :=
  fun page _ => .response 200 (some (pages page))

/-- Environment serving the pages of a list (page 1 is the head). -/
def envOfList (ps : List SearchResults) : Nat → Nat → AttemptOutcome :=
  fun page _ => .response 200 (some (ps.getD (page - 1) ⟨0, []⟩))

/-- Number of pages fetched by a completed loop (0 on error / still running). -/
def loopPages (o : Option (Except RunError Agg)) : Nat :=
  match o with
  | some (.ok agg) => agg.lastPage
  | _ => 0

/-! Concrete inputs used to witness the theorems below. -/

def config0 : YVal :=
  .map [("last_queried", .map
    [("created_from", .str "1900-01-01T00:00:00Z"),
     ("created_to", .str "2024-01-01T00:00:00Z")])]

def now0 : DateTime := ⟨2024, 3, 5, 12, 0, 0⟩

def now1 : DateTime := ⟨2024, 3, 6, 9, 30, 5⟩

/-- The config `main` returns on a successful run from `config0` at `now0`. -/
def config1 : YVal :=
  .map [("last_queried", .map
    [("created_from", .str "2024-01-01T00:00:00Z"),
     ("created_to", .str "2024-03-05T12:00:00Z")])]

/-- The config a second successful run from `config1` at `now1` returns. -/
def config2 : YVal :=
  .map [("last_queried", .map
    [("created_from", .str "2024-03-05T12:00:00Z"),
     ("created_to", .str "2024-03-06T09:30:05Z")])]

/-- Every attempt answers 200 with an empty result set (`total_count` 0). -/
def envEmptyPage : Nat → Nat → AttemptOutcome :=
  fun _ _ => .response 200 (some ⟨0, []⟩)

def run0 : RunOk := ⟨config1, ∅, 1⟩

def run1 : RunOk := ⟨config2, ∅, 1⟩

def env403 : Nat → Nat → AttemptOutcome := fun _ _ => .response 403 none

def envTimeout : Nat → Nat → AttemptOutcome := fun _ _ => .timeout

/-- Attempt 0 gets a 404, attempt 1 gets a good 200. -/
def env404then200 : Nat → AttemptOutcome :=
  fun attempts => if attempts = 0 then .response 404 none
                  else .response 200 (some ⟨0, []⟩)

def env404 : Nat → AttemptOutcome := fun _ => .response 404 none

def itemA : Item := ⟨⟨"a"⟩⟩
def itemB : Item := ⟨⟨"b"⟩⟩
def itemC : Item := ⟨⟨"c"⟩⟩

/-- Two pages both reporting `total_count` 3, with all three items already
on the first page and an empty second page. -/
def pagesJump : List SearchResults := [⟨3, [itemA, itemB, itemC]⟩, ⟨3, []⟩]

/-- Two pages both reporting `total_count` 4, overlapping in `itemB`. -/
def pagesW : List SearchResults := [⟨4, [itemA, itemB]⟩, ⟨4, [itemB, itemC]⟩]

/-- Page 1 carries 3 items but reports `total_count` 2; later pages are
empty, so the running count jumps past the total and never equals it. -/
def cpages : Nat → SearchResults :=
  fun n => if n = 1 then ⟨2, [itemA, itemB, itemC]⟩ else ⟨2, []⟩

/-- `pagesW` with the two pages swapped. -/
def pagesWrev : List SearchResults := [⟨4, [itemB, itemC]⟩, ⟨4, [itemA, itemB]⟩]

/-- Attempt 0 answers 200 with a body `response.json()` cannot parse. -/
def envBadBody : Nat → AttemptOutcome := fun _ => .response 200 none

/-- A config with entries besides the two the run rewrites. -/
def configX : YVal :=
  .map [("other", .str "keep"), ("last_queried", .map
    [("created_from", .str "1900-01-01T00:00:00Z"),
     ("created_to", .str "2024-01-01T00:00:00Z"),
     ("note", .str "n")])]

/-- The config a successful run from `configX` at `now0` returns. -/
def configXnew : YVal :=
  .map [("other", .str "keep"), ("last_queried", .map
    [("created_from", .str "2024-01-01T00:00:00Z"),
     ("created_to", .str "2024-03-05T12:00:00Z"),
     ("note", .str "n")])]

def runX : RunOk := ⟨configXnew, ∅, 1⟩

/-! Dictionary and path lemmas. -/

theorem dictGet_dictSet_self (l : List (String × YVal)) (k : String) (v : YVal) :
    dictGet (dictSet l k v) k = some v := by
  induction l with
  | nil => simp [dictSet, dictGet]
  | cons hd tl ih =>
    obtain ⟨k1, v1⟩ := hd
    by_cases h : k1 = k
    · subst h; simp [dictSet, dictGet]
    · simp [dictSet, dictGet, h, ih]

theorem dictGet_dictSet_other (l : List (String × YVal)) (k k2 : String) (v : YVal)
    (h : k2 ≠ k) : dictGet (dictSet l k v) k2 = dictGet l k2 := by
  induction l with
  | nil => simp [dictSet, dictGet, Ne.symm h]
  | cons hd tl ih =>
    obtain ⟨k1, v1⟩ := hd
    by_cases h1 : k1 = k
    · subst h1; simp [dictSet, dictGet, Ne.symm h]
    · simp only [dictSet, if_neg h1, dictGet]
      by_cases h2 : k1 = k2
      · simp [h2]
      · simp [h2, ih]

theorem getPath_one (entries : List (String × YVal)) (k : String) :
    getPath (.map entries) [k] = dictGet entries k := by
  rcases h : dictGet entries k with _ | v <;> simp [getPath, h]

theorem getPath_pair (entries : List (String × YVal)) (k1 k2 : String)
    (lqm : List (String × YVal)) (h : dictGet entries k1 = some (.map lqm)) :
    getPath (.map entries) [k1, k2] = dictGet lqm k2 := by
  simp only [getPath, h]
  rcases dictGet lqm k2 with _ | v <;> rfl

theorem updateConfig_inv (config : YVal) (nowStr : String) (out : YVal)
    (h : updateConfig config nowStr = some out) :
    ∃ entries lq prevTo, config = .map entries ∧
      dictGet entries "last_queried" = some (.map lq) ∧
      dictGet lq "created_to" = some prevTo ∧
      out = .map (dictSet entries "last_queried"
        (.map (dictSet (dictSet lq "created_to" (.str nowStr)) "created_from" prevTo))) := by
  cases config with
  | str s => simp [updateConfig] at h
  | map entries =>
    rcases hq : dictGet entries "last_queried" with _ | v
    · simp [updateConfig, hq] at h
    · cases v with
      | str s => simp [updateConfig, hq] at h
      | map lq =>
        rcases ht : dictGet lq "created_to" with _ | prevTo
        · simp [updateConfig, hq, ht] at h
        · simp only [updateConfig, hq, ht, Option.some.injEq] at h
          exact ⟨entries, lq, prevTo, rfl, hq, ht, h.symm⟩

theorem updateConfig_fields (config : YVal) (nowStr : String) (out : YVal)
    (h : updateConfig config nowStr = some out) :
    getPath out ["last_queried", "created_from"] =
      getPath config ["last_queried", "created_to"] ∧
    getPath out ["last_queried", "created_to"] = some (.str nowStr) := by
  obtain ⟨entries, lq, prevTo, hc, hq, ht, ho⟩ := updateConfig_inv config nowStr out h
  subst hc; subst ho
  have hsets : dictGet (dictSet entries "last_queried"
      (.map (dictSet (dictSet lq "created_to" (.str nowStr)) "created_from" prevTo)))
      "last_queried" =
      some (.map (dictSet (dictSet lq "created_to" (.str nowStr)) "created_from" prevTo)) :=
    dictGet_dictSet_self _ _ _
  constructor
  · rw [getPath_pair _ _ _ _ hsets, getPath_pair _ _ _ _ hq,
      dictGet_dictSet_self, ht]
  · rw [getPath_pair _ _ _ _ hsets,
      dictGet_dictSet_other _ _ _ _ (by decide), dictGet_dictSet_self]

theorem updateConfig_frame (config : YVal) (nowStr : String) (out : YVal)
    (h : updateConfig config nowStr = some out) :
    (∀ k, k ≠ "last_queried" → getPath out [k] = getPath config [k]) ∧
    (∀ k, k ≠ "created_from" → k ≠ "created_to" →
      getPath out ["last_queried", k] = getPath config ["last_queried", k]) := by
  obtain ⟨entries, lq, prevTo, hc, hq, ht, ho⟩ := updateConfig_inv config nowStr out h
  subst hc; subst ho
  have hsets : dictGet (dictSet entries "last_queried"
      (.map (dictSet (dictSet lq "created_to" (.str nowStr)) "created_from" prevTo)))
      "last_queried" =
      some (.map (dictSet (dictSet lq "created_to" (.str nowStr)) "created_from" prevTo)) :=
    dictGet_dictSet_self _ _ _
  constructor
  · intro k hk
    rw [getPath_one, getPath_one, dictGet_dictSet_other _ _ _ _ hk]
  · intro k h1 h2
    rw [getPath_pair _ _ _ _ hsets, getPath_pair _ _ _ _ hq,
      dictGet_dictSet_other _ _ _ _ h1, dictGet_dictSet_other _ _ _ _ h2]

theorem mainRun_ok_updateConfig (config : YVal) (now : DateTime)
    (env : Nat → Nat → AttemptOutcome) (fuel : Nat) (r : RunOk)
    (h : mainRun config now env fuel = some (.ok r)) :
    updateConfig config (format_datetime now) = some r.newConfig := by
  unfold mainRun at h
  rcases hu : updateConfig config (format_datetime now) with _ | cfg
  · rw [hu] at h; simp at h
  · rw [hu] at h
    rcases hl : pageLoopGo env fuel 1 0 ∅ with _ | res
    · rw [hl] at h; simp at h
    · rw [hl] at h
      cases res with
      | error e => simp at h
      | ok agg =>
        simp only [Option.some.injEq, Except.ok.injEq] at h
        rw [← h]

/-- C1: for every successful run, the updated checkpoint's `created_from`
equals the input checkpoint's `created_to` and its `created_to` equals
`format_datetime` of the call time; consequently a second successful run
from the updated checkpoint starts its range exactly where the first
ended (lines 64, 74-75 of `main.py`). -/
theorem checkpoint_window_tiling (config : YVal) (now : DateTime)
    (env : Nat → Nat → AttemptOutcome) (fuel : Nat) (r : RunOk)
    (now2 : DateTime) (env2 : Nat → Nat → AttemptOutcome) (fuel2 : Nat) (r2 : RunOk)
    (h1 : mainRun config now env fuel = some (.ok r))
    (h2 : mainRun r.newConfig now2 env2 fuel2 = some (.ok r2)) :
    getPath r.newConfig ["last_queried", "created_from"] =
      getPath config ["last_queried", "created_to"] ∧
    getPath r.newConfig ["last_queried", "created_to"] =
      some (.str (format_datetime now)) ∧
    getPath r2.newConfig ["last_queried", "created_from"] =
      some (.str (format_datetime now)) := by
  have f1 := updateConfig_fields _ _ _ (mainRun_ok_updateConfig _ _ _ _ _ h1)
  have f2 := updateConfig_fields _ _ _ (mainRun_ok_updateConfig _ _ _ _ _ h2)
  exact ⟨f1.1, f1.2, by rw [f2.1, f1.2]⟩

/-- C1 witness: two concrete successful runs whose checkpoint ranges tile. -/
theorem checkpoint_window_tiling_witness :
    getPath run0.newConfig ["last_queried", "created_from"] =
      getPath config0 ["last_queried", "created_to"] ∧
    getPath run0.newConfig ["last_queried", "created_to"] =
      some (.str (format_datetime now0)) ∧
    getPath run1.newConfig ["last_queried", "created_from"] =
      some (.str (format_datetime now0)) :=
  checkpoint_window_tiling config0 now0 envEmptyPage 1 run0 now1 envEmptyPage 1 run1
    rfl rfl

/-- C9: a successful run returns a config agreeing with the input config on
every entry other than `last_queried.created_from` and
`last_queried.created_to`; the input value itself is a pure argument the
run only reads (line 52 deep-copies it before the assignments of
lines 74-75). -/
theorem config_frame_preservation (config : YVal) (now : DateTime)
    (env : Nat → Nat → AttemptOutcome) (fuel : Nat) (r : RunOk)
    (h : mainRun config now env fuel = some (.ok r)) :
    (∀ k, k ≠ "last_queried" → getPath r.newConfig [k] = getPath config [k]) ∧
    (∀ k, k ≠ "created_from" → k ≠ "created_to" →
      getPath r.newConfig ["last_queried", k] = getPath config ["last_queried", k]) :=
  updateConfig_frame _ _ _ (mainRun_ok_updateConfig _ _ _ _ _ h)

/-- C9 witness: a concrete run keeps the unrelated entries `other` and
`last_queried.note` unchanged. -/
theorem config_frame_preservation_witness :
    getPath runX.newConfig ["other"] = getPath configX ["other"] ∧
    getPath runX.newConfig ["last_queried", "note"] =
      getPath configX ["last_queried", "note"] :=
  ⟨(config_frame_preservation configX now0 envEmptyPage 1 runX rfl).1 "other" (by decide),
   (config_frame_preservation configX now0 envEmptyPage 1 runX rfl).2 "note"
     (by decide) (by decide)⟩

/-! Retry-executor lemmas. -/

theorem fetchGo_cont (env : Nat → AttemptOutcome) (b : Nat) (bs : List Nat) (idx : Nat)
    (h : continuesRetry (env idx) = true) :
    fetchGo env (b :: bs) idx = fetchGo env bs (idx + 1) := by
  cases ho : env idx with
  | timeout => simp [fetchGo, ho]
  | connError => simp [fetchGo, ho]
  | response status body =>
    rw [ho] at h
    simp only [continuesRetry, Bool.and_eq_true, bne_iff_ne, ne_eq] at h
    obtain ⟨⟨⟨⟨h200, h304⟩, h403⟩, h422⟩, h503⟩ := h
    simp [fetchGo, ho, h200, h304, h403, h422, h503]

theorem fetchGo_skip (env : Nat → AttemptOutcome) :
    ∀ (i : Nat) (bs : List Nat) (idx : Nat), i ≤ bs.length →
      (∀ j, j < i → continuesRetry (env (idx + j)) = true) →
      fetchGo env bs idx = fetchGo env (bs.drop i) (idx + i) := by
  intro i
  induction i with
  | zero => intro bs idx _ _; simp
  | succ i ih =>
    intro bs idx hlen hcont
    cases bs with
    | nil => simp at hlen
    | cons b rest =>
      have h0 : continuesRetry (env idx) = true := by
        simpa using hcont 0 (Nat.succ_pos i)
      rw [fetchGo_cont env b rest idx h0]
      have hshift : ∀ j, j < i → continuesRetry (env (idx + 1 + j)) = true := by
        intro j hj
        have := hcont (j + 1) (by omega)
        rwa [show idx + (j + 1) = idx + 1 + j from by omega] at this
      rw [ih rest (idx + 1) (by simpa using hlen) hshift]
      rw [show (b :: rest).drop (i + 1) = rest.drop i from rfl,
        show idx + (i + 1) = idx + 1 + i from by omega]

/-- C4: a response with status 304, 403, 422 or 503 on any attempt (all
earlier attempts having fallen through to the next budget) aborts the page
fetch at once with the `RuntimeError` of lines 96-102 carrying that status
and its cause, after exactly the attempts already made plus this one, and
the whole run fails with that error. -/
theorem terminal_status_short_circuit (env : Nat → Nat → AttemptOutcome)
    (config new_config : YVal) (now : DateTime) (fuel i s : Nat)
    (body : Option SearchResults)
    (hi : i < 4)
    (hcont : ∀ j, j < i → continuesRetry (env 1 j) = true)
    (hs : s = 304 ∨ s = 403 ∨ s = 422 ∨ s = 503)
    (hresp : env 1 i = .response s body)
    (hcfg : updateConfig config (format_datetime now) = some new_config) :
    fetchPage (env 1) = .error (.terminalApi s (terminalMsg s), i + 1) ∧
    mainRun config now env (fuel + 1) = some (.error (.terminalApi s (terminalMsg s))) := by
  have hfp : fetchPage (env 1) = .error (.terminalApi s (terminalMsg s), i + 1) := by
    unfold fetchPage
    rw [fetchGo_skip (env 1) i retryTimeouts 0 (by simp [retryTimeouts]; omega)
      (by simpa using hcont), Nat.zero_add]
    obtain ⟨b, rest, hdrop⟩ : ∃ b rest, retryTimeouts.drop i = b :: rest := by
      interval_cases i <;> exact ⟨_, _, rfl⟩
    have hs200 : ¬s = 200 := by rcases hs with rfl | rfl | rfl | rfl <;> decide
    rw [hdrop]
    simp [fetchGo, hresp, hs200, hs]
  refine ⟨hfp, ?_⟩
  unfold mainRun
  rw [hcfg]
  simp [pageLoopGo, hfp]

/-- C4 witness: a 403 on the very first attempt fails the run with the
terminal error after exactly one attempt. -/
theorem terminal_status_short_circuit_witness :
    fetchPage (env403 1) = .error (.terminalApi 403 (terminalMsg 403), 1) ∧
    mainRun config0 now0 env403 1 = some (.error (.terminalApi 403 (terminalMsg 403))) :=
  terminal_status_short_circuit env403 config0 config1 now0 0 0 403 none
    (by decide) (fun j hj => absurd hj (by omega)) (Or.inr (Or.inl rfl)) rfl rfl

/-- C2 (code bug): four consecutive timeouts consume exactly the four
budgets 8, 16, 32, 128 — the returned attempt count is 4 — but the run then
fails with the `TypeError` of line 113 (`search_results` is still `None`),
not with a distinct Timeout/Unreachable error. -/
theorem retry_exhaustion_crash :
    fetchPage (envTimeout 1) = .error (.noneTypeError, 4) ∧
    mainRun config0 now0 envTimeout 1 = some (.error .noneTypeError) :=
  ⟨rfl, rfl⟩

/-- C3 counterexample: a 404 (non-200 and not in {304, 403, 422, 503}) on
the first attempt does not fail the fetch — the executor retries, and the
second attempt succeeds, so two attempts are made; and when every attempt
yields such a status the failure is the line-113 `TypeError`, not a
distinct Unexpected Response error. -/
theorem unexpected_status_retries_cex :
    fetchPage env404then200 = .ok (⟨0, []⟩, 2) ∧
    fetchPage env404 = .error (.noneTypeError, 4) :=
  ⟨rfl, rfl⟩

/-- C3 amended: an unparseable body on a 200 response fails the fetch
immediately with the re-raised request exception of line 111; but a
non-200 status outside {304, 403, 422, 503} merely consumes the attempt
(the `if`/`elif` chain of lines 92-102 has no branch for it), and if every
attempt ends that way the fetch fails with the line-113 `TypeError` after
all four attempts. -/
theorem unexpected_response_amended (envA envB : Nat → AttemptOutcome) (i : Nat)
    (hi : i < 4)
    (hcont : ∀ j, j < i → continuesRetry (envA j) = true)
    (hbody : envA i = .response 200 none)
    (hall : ∀ j, j < 4 → continuesRetry (envB j) = true) :
    fetchPage envA = .error (.requestException, i + 1) ∧
    fetchPage envB = .error (.noneTypeError, 4) := by
  constructor
  · unfold fetchPage
    rw [fetchGo_skip envA i retryTimeouts 0 (by simp [retryTimeouts]; omega)
      (by simpa using hcont), Nat.zero_add]
    obtain ⟨b, rest, hdrop⟩ : ∃ b rest, retryTimeouts.drop i = b :: rest := by
      interval_cases i <;> exact ⟨_, _, rfl⟩
    rw [hdrop]
    simp [fetchGo, hbody]
  · unfold fetchPage
    rw [fetchGo_skip envB 4 retryTimeouts 0 (by simp [retryTimeouts])
      (by simpa using hall), Nat.zero_add]
    rfl

/-- C3 amended witness: an unparseable 200 body fails after one attempt;
four 404s crash after all four attempts. -/
theorem unexpected_response_amended_witness :
    fetchPage envBadBody = .error (.requestException, 1) ∧
    fetchPage env404 = .error (.noneTypeError, 4) :=
  unexpected_response_amended envBadBody env404 0 (by decide)
    (fun j hj => absurd hj (by omega)) rfl (fun j hj => rfl)

/-- C6: if `main` raises, the `__main__` block of lines 130-148 never
reaches the backup/overwrite steps: no new checkpoint reaches the caller
and the file system is exactly the input state. -/
theorem failure_preserves_checkpoint_file (config : YVal) (fs : FsState)
    (now : DateTime) (env : Nat → Nat → AttemptOutcome) (fuel : Nat)
    (copySucceeds : Bool) (e : RunError)
    (h : mainRun config now env fuel = some (.error e)) :
    entryMain config fs now env fuel copySucceeds = .failed e fs := by
  unfold entryMain
  rw [h]

/-- C6 witness: a run aborted by a 403 leaves the config file holding the
prior checkpoint. -/
theorem failure_preserves_checkpoint_file_witness :
    entryMain config0 ⟨some config0, none⟩ now0 env403 1 true =
      .failed (.terminalApi 403 (terminalMsg 403)) ⟨some config0, none⟩ :=
  failure_preserves_checkpoint_file config0 ⟨some config0, none⟩ now0 env403 1 true
    (.terminalApi 403 (terminalMsg 403)) rfl

/-- C7: on a successful run, when `shutil.copy2` succeeds the final state
has the backup file holding exactly the prior config-file content and only
then the config file overwritten with the new checkpoint; when the copy
fails, the commit aborts with the file system untouched — the file is
never overwritten without the backup having been made. -/
theorem backup_before_overwrite (config : YVal) (fs : FsState) (now : DateTime)
    (env : Nat → Nat → AttemptOutcome) (fuel : Nat) (r : RunOk)
    (h : mainRun config now env fuel = some (.ok r)) :
    entryMain config fs now env fuel true =
      EntryResult.ok ⟨some r.newConfig, fs.configFile⟩ ∧
    entryMain config fs now env fuel false = .backupFailed fs := by
  unfold entryMain
  rw [h]
  exact ⟨rfl, rfl⟩

/-- C7 witness: a concrete successful commit backs up the old config and
overwrites the file; the same run with a failing copy changes nothing. -/
theorem backup_before_overwrite_witness :
    entryMain config0 ⟨some config0, none⟩ now0 envEmptyPage 1 true =
      EntryResult.ok ⟨some config1, some config0⟩ ∧
    entryMain config0 ⟨some config0, none⟩ now0 envEmptyPage 1 false =
      .backupFailed ⟨some config0, none⟩ :=
  backup_before_overwrite config0 ⟨some config0, none⟩ now0 envEmptyPage 1 run0 rfl

/-! Page-loop lemmas. -/

theorem mem_allLogins (s : String) (ps : List SearchResults) :
    s ∈ allLogins ps ↔ ∃ b, b ∈ ps ∧ s ∈ pageLogins b := by
  induction ps with
  | nil => simp [allLogins]
  | cons x xs ih =>
    simp only [allLogins, Finset.mem_union, ih, List.mem_cons]
    constructor
    · rintro (hx | ⟨b, hb, hs⟩)
      · exact ⟨x, Or.inl rfl, hx⟩
      · exact ⟨b, Or.inr hb, hs⟩
    · rintro ⟨b, rfl | hb, hs⟩
      · exact Or.inl hs
      · exact Or.inr ⟨b, hb, hs⟩

theorem allLogins_perm (ps qs : List SearchResults) (h : ps.Perm qs) :
    allLogins ps = allLogins qs := by
  induction h with
  | nil => rfl
  | cons x _ ih => simp [allLogins, ih]
  | swap x y l => simp [allLogins, Finset.union_left_comm]
  | trans _ _ ih1 ih2 => rw [ih1, ih2]

theorem allLogins_eq_empty (ps : List SearchResults) (h : countSum ps = 0) :
    allLogins ps = ∅ := by
  induction ps with
  | nil => rfl
  | cons x xs ih =>
    simp only [countSum, Nat.add_eq_zero] at h
    have hx : x.items = [] := List.length_eq_zero.mp h.1
    simp [allLogins, pageLogins, hx, ih h.2]

/-- If the environment serves the pages of `ps` (all reporting total `T`)
starting at page `p`, the running count already being `c` with
`c + countSum ps = T`, and every page after the first is nonempty, then
the loop consumes exactly the pages of `ps` and ends with the logins of
`ps` merged in. -/
theorem loopRun (env : Nat → Nat → AttemptOutcome) :
    ∀ (ps : List SearchResults) (T p c fuel : Nat) (u : Finset String),
      ps ≠ [] →
      (∀ k (hk : k < ps.length), ∃ a, fetchPage (env (p + k)) = .ok (ps.get ⟨k, hk⟩, a)) →
      (∀ k (hk : k < ps.length), (ps.get ⟨k, hk⟩).total_count = T) →
      c + countSum ps = T →
      (∀ b ∈ ps.tail, 0 < b.items.length) →
      ps.length ≤ fuel →
      pageLoopGo env fuel p c u = some (.ok ⟨u ∪ allLogins ps, p + ps.length - 1⟩) := by
  intro ps
  induction ps with
  | nil => intro T p c fuel u hne _ _ _ _ _; exact absurd rfl hne
  | cons results rest ih =>
    intro T p c fuel u _ henv htot hsum hpos hfuel
    cases fuel with
    | zero => simp at hfuel
    | succ fuel =>
      obtain ⟨a, ha⟩ := henv 0 (by simp)
      rw [Nat.add_zero] at ha
      have hT0 : results.total_count = T := htot 0 (by simp)
      simp only [pageLoopGo, ha, List.get]
      cases rest with
      | nil =>
        have hc : c + results.items.length = results.total_count := by
          rw [hT0]
          simpa [countSum] using hsum
        rw [if_pos hc]
        simp [allLogins]
      | cons r2 rs =>
        have hpos2 : 0 < countSum (r2 :: rs) := by
          have h2 := hpos r2 (by simp)
          simp only [countSum]
          omega
        have hsum2 : c + results.items.length + countSum (r2 :: rs) = T := by
          simpa [countSum, Nat.add_assoc] using hsum
        have hc : ¬(c + results.items.length = results.total_count) := by
          rw [hT0]
          omega
        rw [if_neg hc]
        have ihx := ih T (p + 1) (c + results.items.length) fuel
          (u ∪ pageLogins results) (by simp)
          (fun k hk => by
            obtain ⟨a2, ha2⟩ := henv (k + 1) (by simpa using Nat.succ_lt_succ hk)
            refine ⟨a2, ?_⟩
            rw [show p + 1 + k = p + (k + 1) from by omega]
            exact ha2)
          (fun k hk => htot (k + 1) (by simpa using Nat.succ_lt_succ hk))
          hsum2
          (fun b hb => hpos b (List.mem_cons_of_mem _ hb))
          (by simp at hfuel ⊢; omega)
        rw [ihx]
        have hu : (u ∪ pageLogins results) ∪ allLogins (r2 :: rs) =
            u ∪ allLogins (results :: r2 :: rs) := by
          simp [allLogins, Finset.union_assoc]
        have hl : p + 1 + (r2 :: rs).length - 1 = p + (results :: r2 :: rs).length - 1 := by
          simp
          omega
        rw [hu, hl]

/-- C5 counterexample: `pagesJump` is a sequence of 2 pages, both reporting
`total_count` 3, whose summed item counts equal 3 — yet the loop breaks
after exactly 1 page fetch, because the running count already equals the
total at the end of page 1.  So termination after exactly N fetches does
not hold for every distribution of items across pages. -/
theorem pagination_exact_count_cex :
    countSum pagesJump = 3 ∧ pagesJump.length = 2 ∧
    loopPages (pageLoopGo (envOfList pagesJump) 5 1 0 ∅) = 1 ∧ (1 : Nat) ≠ 2 :=
  ⟨rfl, rfl, rfl, by decide⟩

/-- C5 amended: for every sequence of N pages, all reporting the same
`total_count`, whose summed item counts equal that total and in which
every page after the first carries at least one item, the loop terminates
after exactly N page fetches; in particular when `total_count` is 0 it
terminates after the first page with an empty aggregate. -/
theorem pagination_termination_amended (env : Nat → Nat → AttemptOutcome)
    (ps : List SearchResults) (T fuel : Nat)
    (hne : ps ≠ [])
    (henv : ∀ k (hk : k < ps.length), ∃ a, fetchPage (env (1 + k)) = .ok (ps.get ⟨k, hk⟩, a))
    (htot : ∀ k (hk : k < ps.length), (ps.get ⟨k, hk⟩).total_count = T)
    (hsum : countSum ps = T)
    (hpos : ∀ b ∈ ps.tail, 0 < b.items.length)
    (hfuel : ps.length ≤ fuel) :
    pageLoopGo env fuel 1 0 ∅ = some (.ok ⟨allLogins ps, ps.length⟩) ∧
    (T = 0 → allLogins ps = ∅) := by
  constructor
  · rw [loopRun env ps T 1 0 fuel ∅ hne henv htot (by simpa using hsum) hpos hfuel]
    rw [Finset.empty_union, show 1 + ps.length - 1 = ps.length from by omega]
  · intro hT
    exact allLogins_eq_empty ps (by omega)

/-- C5 amended witness: the two nonempty pages of `pagesW` (total 4,
counts 2 + 2) are consumed in exactly 2 fetches. -/
theorem pagination_termination_amended_witness :
    pageLoopGo (envOfList pagesW) 2 1 0 ∅ = some (.ok ⟨allLogins pagesW, 2⟩) ∧
    ((4 : Nat) = 0 → allLogins pagesW = ∅) :=
  pagination_termination_amended (envOfList pagesW) pagesW 4 2 (by decide)
    (fun k hk => by
      have hk2 : k < 2 := by simpa [pagesW] using hk
      interval_cases k <;> exact ⟨1, rfl⟩)
    (fun k hk => by
      have hk2 : k < 2 := by simpa [pagesW] using hk
      interval_cases k <;> rfl)
    rfl (by decide) (by decide)

/-- C8: a run consuming the pages of `ps` ends with `set_of_users` equal to
the union of the submitter logins of all pages' items; as a finite set it
contains each identity exactly once however often it recurs, membership is
exactly "appears on some page", and merging the pages in any other order
yields the same set. -/
theorem duplicate_collapse_union (env : Nat → Nat → AttemptOutcome)
    (ps ps2 : List SearchResults) (T fuel : Nat) (s : String)
    (hne : ps ≠ [])
    (henv : ∀ k (hk : k < ps.length), ∃ a, fetchPage (env (1 + k)) = .ok (ps.get ⟨k, hk⟩, a))
    (htot : ∀ k (hk : k < ps.length), (ps.get ⟨k, hk⟩).total_count = T)
    (hsum : countSum ps = T)
    (hpos : ∀ b ∈ ps.tail, 0 < b.items.length)
    (hfuel : ps.length ≤ fuel)
    (hperm : ps2.Perm ps) :
    pageLoopGo env fuel 1 0 ∅ = some (.ok ⟨allLogins ps, ps.length⟩) ∧
    (s ∈ allLogins ps ↔ ∃ b, b ∈ ps ∧ s ∈ pageLogins b) ∧
    allLogins ps2 = allLogins ps := by
  refine ⟨?_, mem_allLogins s ps, allLogins_perm ps2 ps hperm⟩
  rw [loopRun env ps T 1 0 fuel ∅ hne henv htot (by simpa using hsum) hpos hfuel]
  rw [Finset.empty_union, show 1 + ps.length - 1 = ps.length from by omega]

/-- C8 witness: the overlapping pages of `pagesW` (login `b` appears on
both) yield the loop result `allLogins pagesW`, and merging the pages in
the swapped order gives the same set. -/
theorem duplicate_collapse_union_witness :
    pageLoopGo (envOfList pagesW) 2 1 0 ∅ = some (.ok ⟨allLogins pagesW, 2⟩) ∧
    allLogins pagesWrev = allLogins pagesW :=
  ⟨(duplicate_collapse_union (envOfList pagesW) pagesW pagesWrev 4 2 "b" (by decide)
      (fun k hk => by
        have hk2 : k < 2 := by simpa [pagesW] using hk
        interval_cases k <;> exact ⟨1, rfl⟩)
      (fun k hk => by
        have hk2 : k < 2 := by simpa [pagesW] using hk
        interval_cases k <;> rfl)
      rfl (by decide) (by decide) (by decide)).1,
   (duplicate_collapse_union (envOfList pagesW) pagesW pagesWrev 4 2 "b" (by decide)
      (fun k hk => by
        have hk2 : k < 2 := by simpa [pagesW] using hk
        interval_cases k <;> exact ⟨1, rfl⟩)
      (fun k hk => by
        have hk2 : k < 2 := by simpa [pagesW] using hk
        interval_cases k <;> rfl)
      rfl (by decide) (by decide) (by decide)).2.2⟩

theorem fetchPage_envOfFun (pages : Nat → SearchResults) (p : Nat) :
    fetchPage (envOfFun pages p) = .ok (pages p, 1) := rfl

theorem nontermAux (pages : Nat → SearchResults)
    (h : ∀ k, sumTo pages (k + 1) ≠ (pages (k + 1)).total_count) :
    ∀ (fuel p : Nat) (u : Finset String),
      pageLoopGo (envOfFun pages) fuel (p + 1) (sumTo pages p) u = none := by
  intro fuel
  induction fuel with
  | zero => intro p u; rfl
  | succ fuel ih =>
    intro p u
    simp only [pageLoopGo, fetchPage_envOfFun]
    rw [show sumTo pages p + (pages (p + 1)).items.length = sumTo pages (p + 1) from rfl]
    rw [if_neg (h p)]
    exact ih (p + 1) _

/-- C10: when the running item count never equals the `total_count`
reported by the page just fetched, the loop of lines 84-124 never breaks:
for every fuel bound it is still running.  Exact equality at the end of
some page is the only way out (short of an error). -/
theorem loop_nontermination_without_equality (pages : Nat → SearchResults) (fuel : Nat)
    (h : ∀ k, sumTo pages (k + 1) ≠ (pages (k + 1)).total_count) :
    pageLoopGo (envOfFun pages) fuel 1 0 ∅ = none :=
  nontermAux pages h fuel 0 ∅

theorem sumTo_cpages : ∀ k, sumTo cpages (k + 1) = 3 := by
  intro k
  induction k with
  | zero => rfl
  | succ k ih =>
    show sumTo cpages (k + 1) + (cpages (k + 2)).items.length = 3
    rw [ih, show cpages (k + 2) = ⟨2, []⟩ from by
      unfold cpages; rw [if_neg (by omega)]]
    rfl

/-- C10 witness: `cpages` makes the count jump from 0 to 3 past the
reported total 2 on page 1, and the loop is still running after 6
iterations. -/
theorem loop_nontermination_witness :
    pageLoopGo (envOfFun cpages) 6 1 0 ∅ = none :=
  loop_nontermination_without_equality cpages 6
    (fun k => by rw [sumTo_cpages]; unfold cpages; split <;> decide)
